import Mathlib

/-!
Shallow embedding of `rust_src/src/eval_macros.rs` from the remacs
repository: the call-and-signal bridge macros (`xsignal!`, `call!`,
`call_raw!`, `callN_raw!`, `error!`, `wrong_type!`, `args_out_of_range!`,
`list!`, `verify_lisp_type!`, `per_buffer_var_idx!`).

The macros are variadic call-site expansions; each is embedded as a Lean
function over a `List`, covering the expansion for every argument count.
External evaluator primitives (`Fsignal`, `Ffuncall`, `make_string`) are
modelled observationally: a function that signals returns the
`EvalOutcome.signaled` record of exactly what crossed the boundary
(divergence of `Fsignal` means the `ok` outcome is never produced), and
the generic apply primitive is a parameter, so a theorem can state exactly
which frame it receives.
-/

namespace EvalMacros

/-- Dynamic Value (`LispObject`): opaque tagged value owned by the
evaluator's heap. The constructors cover the shapes this core touches:
nil, symbols, integers, evaluator strings (byte content plus the recorded
byte length handed to `make_string`), and cons cells. -/
inductive LispObject : Type
  | nil : LispObject
  | symbol (name : String) : LispObject
  | int (n : Int) : LispObject
  | str (bytes : String) (len : Nat) : LispObject
  | cons (car cdr : LispObject) : LispObject
  deriving DecidableEq

/-- Raw representation: the evaluator's internal encoding of a Dynamic
Value, used only at the marshaling boundary. Modelled as an opaque-wrapper
type so that `to_raw` and `from_raw` are explicit conversion steps. -/
structure Raw : Type where
  repOf : LispObject
  deriving DecidableEq

/-- `LispObject::to_raw` (external conversion used by the macros). -/
def LispObject.to_raw (o : LispObject) : Raw := Raw.mk o

/-- `LispObject::from_raw` (external conversion used by the macros). -/
def LispObject.from_raw (r : Raw) : LispObject := r.repOf

/-- `LispObject::constant_nil()`, the nil value (base case of `list!`). -/
def LispObject.constant_nil : LispObject := LispObject.nil

/-- `LispObject::cons` builds one cons cell (step case of `list!`). -/
def LispObject.buildCons (car cdr : LispObject) : LispObject :=
  LispObject.cons car cdr

/-- Raw nil constant `Qnil` passed by the one-argument `xsignal!`. -/
def Qnil : Raw := LispObject.to_raw LispObject.nil

/-- Pre-interned raw symbol `Qerror` (the generic error condition). -/
def Qerror : Raw := LispObject.to_raw (LispObject.symbol "error")

/-- Pre-interned raw symbol `Qwrong_type_argument`. -/
def Qwrong_type_argument : Raw :=
  LispObject.to_raw (LispObject.symbol "wrong-type-argument")

/-- Pre-interned raw symbol `Qargs_out_of_range`. -/
def Qargs_out_of_range : Raw :=
  LispObject.to_raw (LispObject.symbol "args-out-of-range")

/-- Pre-interned raw symbol `Qcharacterp`. -/
def Qcharacterp : Raw := LispObject.to_raw (LispObject.symbol "characterp")

/-- Pre-interned raw symbol `Qnatnump` (predicate symbol used by the
natural-number conversion of a stored Dynamic Value). -/
def Qnatnump : Raw := LispObject.to_raw (LispObject.symbol "natnump")

/-- Outcome of an operation that may invoke the evaluator's non-local
signal primitive: either a normal value, or the `(symbol, data)` pair
that `Fsignal` received. `Fsignal` never returns, so a signaling
operation never produces `ok`. -/
inductive EvalOutcome (α : Type) : Type
  | ok (v : α) : EvalOutcome α
  | signaled (symbol : Raw) (data : Raw) : EvalOutcome α
  deriving DecidableEq

/-- `list!`: folds the argument sequence into a cons chain,
`list!(a, rest...) = cons(a, list!(rest...))`, `list!() = constant_nil()`. -/
def list : List LispObject → LispObject
  | [] => LispObject.constant_nil
  | a :: rest => LispObject.buildCons a (list rest)

/-- `xsignal!(symbol)`: calls `Fsignal(symbol, Qnil)`; never returns, so
the result type is arbitrary. -/
def xsignal0 {α : Type} (symbol : Raw) : EvalOutcome α :=
  EvalOutcome.signaled symbol Qnil

/-- `xsignal!(symbol, data...)`: calls
`Fsignal(symbol, list!(data...).to_raw())`; never returns. -/
def xsignalN {α : Type} (symbol : Raw) (data : List LispObject) : EvalOutcome α :=
  EvalOutcome.signaled symbol (list data).to_raw

/-- The contiguous argument frame built by `call!`:
`[func.to_raw(), arg1.to_raw(), ..., argN.to_raw()]`. -/
def call_frame (func : LispObject) (args : List LispObject) : List Raw :=
  func.to_raw :: args.map LispObject.to_raw

/-- `call!(func, args...)`: builds the frame, invokes
`Ffuncall(frame.len(), frame.as_mut_ptr())`, and converts the raw result
back via `from_raw`. The generic apply primitive `Ffuncall` is a
parameter `F` taking the count and the frame. -/
def call (F : Nat → List Raw → Raw) (func : LispObject) (args : List LispObject) :
    LispObject :=
  LispObject.from_raw (F (call_frame func args).length (call_frame func args))

/-- `call_raw!(func, args...)`: same as `call!` but the callee and
arguments are already raw, so no conversion happens on the way in. -/
def call_raw (F : Nat → List Raw → Raw) (func : Raw) (args : List Raw) :
    LispObject :=
  LispObject.from_raw (F (func :: args).length (func :: args))

/-- `callN_raw!(func, args...)`: the frame holds only the arguments, and
`func` itself is the applied primitive, invoked as
`func(argsarray.len(), argsarray.as_mut_ptr())`. -/
def callN_raw (func : Nat → List Raw → Raw) (args : List Raw) : LispObject :=
  LispObject.from_raw (func args.length args)

/-- `make_string(ptr, len)` (external): allocates an evaluator string of
exactly `len` bytes copied from the pointer; no terminator is counted. -/
def make_string (bytes : String) (len : Nat) : Raw :=
  LispObject.to_raw (LispObject.str bytes len)

/-- `error!(str)`, literal form: builds
`make_string(str.as_ptr(), str.len())` (`len()` of a Rust string slice is
its byte length) and raises `xsignal!(Qerror, from_raw(strobj))`. -/
def error_lit {α : Type} (s : String) : EvalOutcome α :=
  xsignalN Qerror [LispObject.from_raw (make_string s s.utf8ByteSize)]

/-- Host-side interpolation engine of Rust `format!` restricted to plain
placeholders: each two-byte placeholder (open brace, close brace) in the
template is replaced by the display rendering of the next argument,
supplied here already rendered to a string. -/
def substPlaceholders : List Char → List String → List Char
  | [], _ => []
  | '\x7b' :: '\x7d' :: rest, a :: moreArgs => a.data ++ substPlaceholders rest moreArgs
  | c :: rest, moreArgs => c :: substPlaceholders rest moreArgs

/-- `format!(fmtstr, args...)` over plain placeholders. -/
def rustFormat (template : String) (args : List String) : String :=
  String.mk (substPlaceholders template.data args)

/-- `error!(fmtstr, args...)`, formatted form: interpolates host-side via
`format!`, then builds `make_string(formatted.as_ptr(), formatted.len())`
and raises `xsignal!(Qerror, from_raw(strobj))`. -/
def error_fmt {α : Type} (fmtstr : String) (args : List String) : EvalOutcome α :=
  let formatted := rustFormat fmtstr args
  xsignalN Qerror [LispObject.from_raw (make_string formatted formatted.utf8ByteSize)]

/-- `wrong_type!(pred, arg)`: raises
`xsignal!(Qwrong_type_argument, LispObject::from_raw(pred), arg)`. -/
def wrong_type {α : Type} (pred : Raw) (arg : LispObject) : EvalOutcome α :=
  xsignalN Qwrong_type_argument [LispObject.from_raw pred, arg]

/-- `args_out_of_range!(data...)`: raises
`xsignal!(Qargs_out_of_range, data...)`. -/
def args_out_of_range {α : Type} (data : List LispObject) : EvalOutcome α :=
  xsignalN Qargs_out_of_range data

/-- `verify_lisp_type!(n, Qcharacterp)`: signals wrong-type with symbol
`Qcharacterp` and `LispObject::from(n)` when
`n < 0 || n > (MAX_CHAR as EmacsInt)`; otherwise falls through (no-op).
`MAX_CHAR` lives in the `multibyte` module outside this file, so it is a
parameter here. -/
def verify_lisp_type_characterp (maxChar : Int) (n : Int) : EvalOutcome Unit :=
  if n < 0 ∨ n > maxChar then
    wrong_type Qcharacterp (LispObject.int n)
  else
    EvalOutcome.ok ()

/-- Modelled from the spec: the generic Type Verifier contract
`verify(predicate, predicateSymbol, value)`. The macro in the source
hard-codes three predicate branches of exactly this shape
(`is_array`, character range, `is_string`); the predicate methods
`is_array` and `is_string` are defined outside this file, so the
predicate is abstracted as a boolean test. -/
def verify_lisp_type (pred : LispObject → Bool) (predSym : Raw) (obj : LispObject) :
    EvalOutcome Unit :=
  if pred obj = false then
    wrong_type predSym obj
  else
    EvalOutcome.ok ()

/-- Modelled from the spec: `as_natnum_or_error`, defined outside this
file, converts a stored Dynamic Value to a non-negative integer, raising
wrong-type-argument (with the natural-number predicate symbol and the
offending value) when the value is not a valid non-negative integer. -/
def as_natnum_or_error (o : LispObject) : EvalOutcome Int :=
  match o with
  | LispObject.int n => if 0 ≤ n then EvalOutcome.ok n else wrong_type Qnatnump o
  | _ => wrong_type Qnatnump o

/-- `per_buffer_var_idx!(field)`: reads the stored raw value
`buffer_local_flags.field` from the process-wide table, converts it via
`from_raw`, and applies `as_natnum_or_error`, casting the result to an
unsigned machine integer (`usize`). -/
def per_buffer_var_idx (stored : Raw) : EvalOutcome Nat :=
  match as_natnum_or_error (LispObject.from_raw stored) with
  | EvalOutcome.ok n => EvalOutcome.ok n.toNat
  | EvalOutcome.signaled s d => EvalOutcome.signaled s d

/-- Claim C1: for every condition symbol and every data sequence, the
one-argument and two-argument raise forms never return to their caller
(no `ok` outcome), and the signal primitive receives exactly the symbol
passed and exactly the data list built from the passed data; the
one-argument form passes the nil data list. -/
theorem xsignal_exact_and_divergent (symbol : Raw) (data : List LispObject) :
    xsignal0 (α := Unit) symbol = EvalOutcome.signaled symbol Qnil ∧
    xsignalN (α := Unit) symbol data = EvalOutcome.signaled symbol (list data).to_raw ∧
    (∀ v : Unit, xsignal0 symbol ≠ EvalOutcome.ok v) ∧
    (∀ v : Unit, xsignalN symbol data ≠ EvalOutcome.ok v) := by
  refine ⟨rfl, rfl, ?_, ?_⟩ <;> intro v h <;> exact EvalOutcome.noConfusion h

/-- Concrete instance of the raise observation theorem. -/
theorem xsignal_exact_and_divergent_witness :
    xsignal0 (α := Unit) Qerror = EvalOutcome.signaled Qerror Qnil ∧
    xsignalN (α := Unit) Qerror [LispObject.int 1] =
      EvalOutcome.signaled Qerror (list [LispObject.int 1]).to_raw :=
  ⟨(xsignal_exact_and_divergent Qerror [LispObject.int 1]).1,
   (xsignal_exact_and_divergent Qerror [LispObject.int 1]).2.1⟩

/-- Claim C2: the List Builder yields the right-associated chain
cons(v1, cons(v2, ..., cons(vn, nil))), preserving input order exactly
(the first element heads the outermost cell), and yields nil on the
empty sequence. -/
theorem list_right_associated (v : List LispObject) (a b c : LispObject) :
    list v = v.foldr LispObject.buildCons LispObject.constant_nil ∧
    list ([] : List LispObject) = LispObject.constant_nil ∧
    (∀ hd tl, list (hd :: tl) = LispObject.buildCons hd (list tl)) ∧
    list [a, b, c] =
      LispObject.cons a (LispObject.cons b (LispObject.cons c LispObject.nil)) := by
  refine ⟨?_, rfl, fun hd tl => rfl, rfl⟩
  induction v with
  | nil => rfl
  | cons hd tl ih => simp [list, ih]

/-- Concrete instance of the list builder theorem. -/
theorem list_right_associated_witness :
    list [LispObject.int 1, LispObject.int 2, LispObject.int 3] =
      LispObject.cons (LispObject.int 1) (LispObject.cons (LispObject.int 2)
        (LispObject.cons (LispObject.int 3) LispObject.nil)) :=
  (list_right_associated [] (LispObject.int 1) (LispObject.int 2) (LispObject.int 3)).2.2.2

/-- Claim C3: call! builds a contiguous frame [f, a1, ..., an] of length
1 + n with the callee first and the arguments converted in left-to-right
order, invokes the apply primitive with that frame and its count, and
returns the raw result converted back to a Dynamic Value. -/
theorem call_marshals_frame (F : Nat → List Raw → Raw) (func : LispObject)
    (args : List LispObject) :
    (call_frame func args).length = 1 + args.length ∧
    (call_frame func args).get? 0 = some func.to_raw ∧
    (∀ i : Nat, (call_frame func args).get? (i + 1) = (args.get? i).map LispObject.to_raw) ∧
    call F func args = LispObject.from_raw (F (1 + args.length) (call_frame func args)) := by
  have hl : (call_frame func args).length = 1 + args.length := by
    simp [call_frame, Nat.add_comm]
  refine ⟨hl, rfl, ?_, ?_⟩
  · intro i
    simp [call_frame]
  · rw [call, hl]

/-- Concrete instance of the call marshaling theorem. -/
theorem call_marshals_frame_witness :
    (call_frame (LispObject.symbol "f") [LispObject.int 1]).length = 1 + 1 ∧
    call (fun (_ : Nat) (_ : List Raw) => Qnil) (LispObject.symbol "f") [LispObject.int 1] =
      LispObject.from_raw ((fun (_ : Nat) (_ : List Raw) => Qnil) (1 + 1)
        (call_frame (LispObject.symbol "f") [LispObject.int 1])) :=
  ⟨(call_marshals_frame (fun (_ : Nat) (_ : List Raw) => Qnil)
      (LispObject.symbol "f") [LispObject.int 1]).1,
   (call_marshals_frame (fun (_ : Nat) (_ : List Raw) => Qnil)
      (LispObject.symbol "f") [LispObject.int 1]).2.2.2⟩

/-- Claim C4 counterexample: error!("bad value: \x7b\x7d", 5) raises the
generic error with a string of content "bad value: 5" whose byte length
is 12, not 13 as the claim states. -/
theorem error_fmt_length_cex :
    error_fmt (α := Unit) "bad value: \x7b\x7d" ["5"] =
      EvalOutcome.signaled Qerror
        (list [LispObject.from_raw (make_string "bad value: 5" 12)]).to_raw ∧
    error_fmt (α := Unit) "bad value: \x7b\x7d" ["5"] ≠
      EvalOutcome.signaled Qerror
        (list [LispObject.from_raw (make_string "bad value: 5" 13)]).to_raw ∧
    ("bad value: 5").utf8ByteSize = 12 := by
  refine ⟨by decide, by decide, by decide⟩

/-- Claim C4 as amended: error!("bad value: \x7b\x7d", 5) raises the
generic error condition with a single evaluator string of content
"bad value: 5" and byte length 12, the length computed host-side. -/
theorem error_fmt_spec :
    error_fmt (α := Unit) "bad value: \x7b\x7d" ["5"] =
      EvalOutcome.signaled Qerror
        (list [LispObject.from_raw (make_string "bad value: 5" 12)]).to_raw ∧
    rustFormat "bad value: \x7b\x7d" ["5"] = "bad value: 5" := by
  refine ⟨by decide, by decide⟩

/-- Claim C5: the character-range check accepts exactly the integers in
[0, MAX_CHAR]: 0 passes with no signal, while -1 and MAX_CHAR + 1 each
raise wrong-type-argument with predicate symbol characterp and the
offending integer, converted to a Dynamic Value, as the data. -/
theorem verify_characterp_range (maxChar : Int) (hmc : 0 ≤ maxChar) :
    verify_lisp_type_characterp maxChar 0 = EvalOutcome.ok () ∧
    verify_lisp_type_characterp maxChar (-1) =
      EvalOutcome.signaled Qwrong_type_argument
        (list [LispObject.from_raw Qcharacterp, LispObject.int (-1)]).to_raw ∧
    verify_lisp_type_characterp maxChar (maxChar + 1) =
      EvalOutcome.signaled Qwrong_type_argument
        (list [LispObject.from_raw Qcharacterp, LispObject.int (maxChar + 1)]).to_raw ∧
    (∀ n : Int, verify_lisp_type_characterp maxChar n = EvalOutcome.ok () ↔
      0 ≤ n ∧ n ≤ maxChar) := by
  refine ⟨?_, ?_, ?_, ?_⟩
  · unfold verify_lisp_type_characterp
    rw [if_neg]
    omega
  · unfold verify_lisp_type_characterp
    rw [if_pos]
    · rfl
    · omega
  · unfold verify_lisp_type_characterp
    rw [if_pos]
    · rfl
    · omega
  · intro n
    unfold verify_lisp_type_characterp
    split_ifs with hc
    · simp only [wrong_type, xsignalN]
      constructor
      · intro h
        exact absurd h (fun h => EvalOutcome.noConfusion h)
      · intro h
        omega
    · simp only [true_iff, eq_self_iff_true]
      omega

/-- Concrete instance of the character-range theorem at MAX_CHAR =
0x3FFFFF. -/
theorem verify_characterp_range_witness :
    (0:Int) ≤ 4194303 ∧
    verify_lisp_type_characterp 4194303 0 = EvalOutcome.ok () ∧
    verify_lisp_type_characterp 4194303 (-1) =
      EvalOutcome.signaled Qwrong_type_argument
        (list [LispObject.from_raw Qcharacterp, LispObject.int (-1)]).to_raw :=
  ⟨by decide, (verify_characterp_range 4194303 (by decide)).1,
   (verify_characterp_range 4194303 (by decide)).2.1⟩

/-- Claim C6: verify(pred, sym, v) is a no-op when pred(v) holds and
otherwise raises wrong-type-argument with data list [sym, v] exactly,
in that order. -/
theorem verify_generic_spec (pred : LispObject → Bool) (predSym : Raw) (v : LispObject) :
    (pred v = true → verify_lisp_type pred predSym v = EvalOutcome.ok ()) ∧
    (pred v = false → verify_lisp_type pred predSym v =
      EvalOutcome.signaled Qwrong_type_argument
        (list [LispObject.from_raw predSym, v]).to_raw) := by
  constructor
  · intro h
    simp [verify_lisp_type, h]
  · intro h
    simp [verify_lisp_type, h, wrong_type, xsignalN]

/-- Concrete instance of the generic verifier theorem, with the
nil-test predicate. -/
theorem verify_generic_spec_witness :
    verify_lisp_type (fun o => decide (o = LispObject.nil)) Qcharacterp LispObject.nil =
      EvalOutcome.ok () ∧
    verify_lisp_type (fun o => decide (o = LispObject.nil)) Qcharacterp (LispObject.int 3) =
      EvalOutcome.signaled Qwrong_type_argument
        (list [LispObject.from_raw Qcharacterp, LispObject.int 3]).to_raw :=
  ⟨(verify_generic_spec (fun o => decide (o = LispObject.nil)) Qcharacterp
      LispObject.nil).1 (by decide),
   (verify_generic_spec (fun o => decide (o = LispObject.nil)) Qcharacterp
      (LispObject.int 3)).2 (by decide)⟩

/-- Claim C7: error!("bad value") raises the generic error condition with
data [string], where the string is an evaluator string of byte length
exactly 9, with no terminator byte counted; the call never returns. -/
theorem error_lit_spec :
    error_lit (α := Unit) "bad value" =
      EvalOutcome.signaled Qerror
        (list [LispObject.from_raw (make_string "bad value" 9)]).to_raw ∧
    ("bad value").utf8ByteSize = 9 ∧
    error_lit (α := Unit) "bad value" ≠ EvalOutcome.ok () := by
  refine ⟨by decide, by decide, by decide⟩

/-- Claim C8: raise(sym) equals raise(sym, []) applied to the empty data
sequence: both invoke the signal primitive with the same symbol and the
same nil data list. -/
theorem xsignal0_eq_xsignalN_nil (symbol : Raw) :
    xsignal0 (α := Unit) symbol = xsignalN (α := Unit) symbol [] := rfl

/-- Concrete instance of the empty-data equivalence theorem. -/
theorem xsignal0_eq_xsignalN_nil_witness :
    xsignal0 (α := Unit) Qerror = xsignalN (α := Unit) Qerror [] :=
  xsignal0_eq_xsignalN_nil Qerror

/-- Claim C9: slot index lookup raises wrong-type-argument when the
stored Dynamic Value is uninitialized (nil) or not a valid non-negative
integer, and on a valid entry returns the stored non-negative integer
unchanged. -/
theorem per_buffer_var_idx_spec (o : LispObject) :
    (∀ n : Int, o = LispObject.int n → 0 ≤ n →
      per_buffer_var_idx o.to_raw = EvalOutcome.ok n.toNat) ∧
    ((∀ n : Int, o ≠ LispObject.int n) →
      per_buffer_var_idx o.to_raw =
        EvalOutcome.signaled Qwrong_type_argument
          (list [LispObject.from_raw Qnatnump, o]).to_raw) ∧
    (∀ n : Int, o = LispObject.int n → n < 0 →
      per_buffer_var_idx o.to_raw =
        EvalOutcome.signaled Qwrong_type_argument
          (list [LispObject.from_raw Qnatnump, o]).to_raw) := by
  refine ⟨?_, ?_, ?_⟩
  · rintro n rfl hn
    simp [per_buffer_var_idx, as_natnum_or_error, LispObject.from_raw, LispObject.to_raw, hn]
  · intro hno
    cases o with
    | int n => exact absurd rfl (hno n)
    | nil => rfl
    | symbol name => rfl
    | str bytes len => rfl
    | cons car cdr => rfl
  · rintro n rfl hn
    have hneg : ¬ (0:Int) ≤ n := by omega
    simp [per_buffer_var_idx, as_natnum_or_error, LispObject.from_raw, LispObject.to_raw,
      hneg, wrong_type, xsignalN]

/-- Concrete instance of the slot index lookup theorem: a stored 5 is
returned unchanged, a stored nil (the uninitialized default) signals. -/
theorem per_buffer_var_idx_spec_witness :
    per_buffer_var_idx ((LispObject.int 5).to_raw) = EvalOutcome.ok 5 ∧
    per_buffer_var_idx (LispObject.nil.to_raw) =
      EvalOutcome.signaled Qwrong_type_argument
        (list [LispObject.from_raw Qnatnump, LispObject.nil]).to_raw :=
  ⟨(per_buffer_var_idx_spec (LispObject.int 5)).1 5 rfl (by decide),
   (per_buffer_var_idx_spec LispObject.nil).2.1 (fun n h => LispObject.noConfusion h)⟩

/-- Claim C10: callN_raw builds a frame containing only the arguments
(length n, not 1 + n) and invokes the callee itself as the applied
primitive with that frame's count and contents; for the same argument
list, the call! frame would have length n + 1. -/
theorem callN_raw_spec (F : Nat → List Raw → Raw) (args : List Raw) :
    callN_raw F args = LispObject.from_raw (F args.length args) ∧
    (∀ func0 : LispObject,
      (call_frame func0 (args.map LispObject.from_raw)).length = args.length + 1) := by
  refine ⟨rfl, ?_⟩
  intro func0
  simp [call_frame]

/-- Concrete instance of the raw N-ary call theorem. -/
theorem callN_raw_spec_witness :
    callN_raw (fun (_ : Nat) (_ : List Raw) => Qnil) [Qerror] =
      LispObject.from_raw ((fun (_ : Nat) (_ : List Raw) => Qnil) 1 [Qerror]) :=
  (callN_raw_spec (fun (_ : Nat) (_ : List Raw) => Qnil) [Qerror]).1

end EvalMacros
